import Mathlib

/-!
Verification of the sandbox/tooling core of the ai-code-assistant repository
(`src/api/app/agents/tools.py`, `src/api/app/utils/docker_route.py`,
`src/api/app/api/projects.py`) against its specification.

The Python sources are shallowly embedded: pure string manipulation is
translated to executable Lean functions over `String`/`List Char`; calls to
the operating system (file system, subprocesses, chdir, sleep) are made
explicit as effect traces, with the outcomes of external processes supplied
as parameters ("world" values).
-/

set_option linter.unusedVariables false

namespace AiCode

/-! ### String primitives mirroring the Python built-ins used by the sources -/

/-- Boolean prefix test on character lists (Python `str.startswith`). -/
def isPre : List Char → List Char → Bool
  | [], _ => true
  | _ :: _, [] => false
  | a :: as, b :: bs => if a = b then isPre as bs else false

/-- Boolean substring test on character lists (Python `pat in s`). -/
def subList (pat : List Char) : List Char → Bool
  | [] => isPre pat []
  | c :: t => isPre pat (c :: t) || subList pat t

/-- `str.startswith` on strings. -/
def startsWithStr (pre s : String) : Bool := isPre pre.data s.data

/-- `pat in s` on strings. -/
def subStr (pat s : String) : Bool := subList pat.data s.data

/-- `str.lower` (ASCII view, as used by the sources). -/
def lowerStr (s : String) : String := String.mk (s.data.map Char.toLower)

/-- Drop leading and trailing whitespace from a character list. -/
def trimChars (l : List Char) : List Char :=
  ((l.dropWhile Char.isWhitespace).reverse.dropWhile Char.isWhitespace).reverse

/-- Python `str.strip()`. -/
def pyStrip (s : String) : String := String.mk (trimChars s.data)

/-- Split a character list at every occurrence of `sep`, keeping empty parts
(Python `str.split(sep)`). `acc` holds the current part, reversed. -/
def splitOnCharAux (sep : Char) (acc : List Char) : List Char → List (List Char)
  | [] => [acc.reverse]
  | c :: t =>
    if c = sep then acc.reverse :: splitOnCharAux sep [] t
    else splitOnCharAux sep (c :: acc) t

/-- Python `str.split(sep)` for a one-character separator. -/
def splitChar (sep : Char) (s : String) : List String :=
  (splitOnCharAux sep [] s.data).map String.mk

/-- Python `str.split()` with no argument: split on blank runs and drop empty
parts (the sources only ever feed it space-separated commands). -/
def pySplitWs (s : String) : List String :=
  ((splitOnCharAux ' ' [] s.data).filter (fun l => l ≠ [])).map String.mk

/-- Join character lists with a separator character. -/
def joinWith (sep : Char) : List (List Char) → List Char
  | [] => []
  | [x] => x
  | x :: y :: t => x ++ sep :: joinWith sep (y :: t)

/-- Replace every occurrence of `pat` (nonempty) by `rep`, scanning left to
right; `fuel` bounds the recursion by the input length. -/
def replaceAllAux (pat rep : List Char) : Nat → List Char → List Char
  | 0, l => l
  | _ + 1, [] => []
  | fuel + 1, c :: t =>
    if isPre pat (c :: t) then rep ++ replaceAllAux pat rep fuel ((c :: t).drop pat.length)
    else c :: replaceAllAux pat rep fuel t

/-- Python `str.replace(pat, rep)` for nonempty `pat`. -/
def pyReplace (s pat rep : String) : String :=
  String.mk (replaceAllAux pat.data rep.data s.data.length s.data)

/-- Numeric value of a run of decimal digit characters (Python `int`). -/
def digitsToNat (ds : List Char) : Nat :=
  ds.foldl (fun a c => 10 * a + (c.toNat - 48)) 0

/-! ### Posix path model (`os.path.join` / `abspath` / `dirname`)

The sources run on one flat posix layout; paths here never use the duplicated
leading slash that posix treats specially. -/

/-- `posixpath.join` for two components: an absolute second component replaces
the first entirely. -/
def osPathJoin (a b : String) : String :=
  if startsWithStr "/" b then b
  else if a = "" then b
  else if a.data.getLast? = some '/' then a ++ b
  else a ++ "/" ++ b

/-- Normalisation stack for the components of an absolute path: empty and
`"."` components vanish, `".."` pops (and is dropped at the root). -/
def normAbsComps (acc : List String) : List String → List String
  | [] => acc
  | c :: rest =>
    if c = "" ∨ c = "." then normAbsComps acc rest
    else if c = ".." then normAbsComps acc.dropLast rest
    else normAbsComps (acc ++ [c]) rest

/-- `posixpath.normpath` restricted to absolute paths. -/
def osNormPathAbs (p : String) : String :=
  String.mk ('/' :: joinWith '/' ((normAbsComps [] (splitChar '/' p)).map String.data))

/-- `os.path.abspath` relative to a current working directory `cwd`. -/
def osAbspath (cwd p : String) : String :=
  osNormPathAbs (if startsWithStr "/" p then p else osPathJoin cwd p)

/-- Split a character list before its last occurrence of `sep`: the characters
strictly before and strictly after that separator. -/
def splitLastChar (sep : Char) : List Char → Option (List Char × List Char)
  | [] => none
  | c :: t =>
    match splitLastChar sep t with
    | some (a, b) => some (c :: a, b)
    | none => if c = sep then some ([], t) else none

/-- `os.path.dirname` for posix paths: everything up to the last separator,
with trailing separators stripped unless the head is all separators. -/
def osDirname (p : String) : String :=
  match splitLastChar '/' p.data with
  | none => ""
  | some (a, _) =>
    let raw := a ++ ['/']
    if raw.all (fun c => c = '/') then String.mk raw
    else String.mk ((raw.reverse.dropWhile (fun c => c = '/')).reverse)

/-! ### File-system tools (`src/api/app/agents/tools.py`)

A tool returns its observation string together with the list of file-system
effects it performed. The file system is an oracle from resolved absolute
paths to contents; the operating system resolves whatever (possibly
unnormalised) path is handed to `open`/`makedirs`. -/

/-- File-system effects a tool can perform. -/
inductive FsEffect where
  | readF (path : String)
  | makedirs (path : String)
  | writeF (path : String) (content : String)
  deriving DecidableEq

/-- Embedding of `read_file_tool` (tools.py lines 30-44). The containment
check compares the raw `os.path.join` result against `abspath(project_path)`,
exactly as the source does. -/
def read_file_tool (cwd project_path file_path : String)
    (fs : String → Option String) : String × List FsEffect :=
  let full_path := osPathJoin project_path file_path
  if startsWithStr (osAbspath cwd project_path) full_path = false then
    ("Error: Access denied - file outside project directory", [])
  else
    match fs (osAbspath cwd full_path) with
    | some content =>
      ("Content of " ++ file_path ++ ":\n" ++ content, [.readF (osAbspath cwd full_path)])
    | none =>
      ("Error: File " ++ file_path ++ " not found", [.readF (osAbspath cwd full_path)])

/-- Split at the first `|` (Python `split('|', 1)` yielding two parts). -/
def splitPipeOnce (acc : List Char) : List Char → Option (String × String)
  | [] => none
  | c :: t =>
    if c = '|' then some (String.mk acc.reverse, String.mk t)
    else splitPipeOnce (c :: acc) t

/-- Embedding of `write_file_tool` (tools.py lines 46-68). -/
def write_file_tool (cwd project_path input_str : String) : String × List FsEffect :=
  match splitPipeOnce [] input_str.data with
  | none => ("Error: Input must be in format 'filename|content'", [])
  | some (file_path, content) =>
    let full_path := osPathJoin project_path file_path
    if startsWithStr (osAbspath cwd project_path) full_path = false then
      ("Error: Access denied - file outside project directory", [])
    else
      ("Successfully wrote to " ++ file_path,
       [.makedirs (osAbspath cwd (osDirname full_path)),
        .writeF (osAbspath cwd full_path) content])

/-- Embedding of the standalone async `write_file` tool (tools.py lines 9-25)
on its non-raising path: it joins the three components, creates the parent
directories and writes, with no containment check anywhere. -/
def write_file (projects_dir project_name file_path content cwd : String) :
    String × List FsEffect :=
  let full_path := osPathJoin (osPathJoin projects_dir project_name) file_path
  ("File '" ++ file_path ++ "' has been written successfully in project '"
      ++ project_name ++ "'.",
   [.makedirs (osAbspath cwd (osDirname full_path)),
    .writeF (osAbspath cwd full_path) content])

/-- Spec-side predicate (spec §8 Path containment): the input escapes when
`resolve(root, path)` does not start with `resolve(root)`. -/
def specEscapes (cwd root path : String) : Bool :=
  !(startsWithStr (osAbspath cwd root) (osAbspath cwd (osPathJoin root path)))

/-- Concrete file system for evaluating the traversal: only `/etc/passwd`
exists. -/
def fsDemo : String → Option String := fun p =>
  if p = "/etc/passwd" then some "root:x:0:0:root:/root:/bin/bash" else none

/-- Claim C1 (code bug): with root `/proj/A` the input `../../etc/passwd`
resolves outside the root (the spec demands AccessDenied and no I/O), yet
`read_file_tool` reads the resolved file `/etc/passwd` and returns its
contents, and `write_file_tool` writes through the same traversal — the
source compares the unnormalised join against the resolved root, so `..`
segments defeat the check. -/
theorem C1_path_traversal_bug :
    specEscapes "/" "/proj/A" "../../etc/passwd" = true
    ∧ read_file_tool "/" "/proj/A" "../../etc/passwd" fsDemo
        = ("Content of ../../etc/passwd:\nroot:x:0:0:root:/root:/bin/bash",
           [FsEffect.readF "/etc/passwd"])
    ∧ write_file_tool "/" "/proj/A" "../../etc/passwd|pwned"
        = ("Successfully wrote to ../../etc/passwd",
           [FsEffect.makedirs "/etc", FsEffect.writeF "/etc/passwd" "pwned"]) := by
  decide

/-- Claim C10 (confirmed): the standalone `write_file` performs no containment
check — an absolute `file_path` makes `os.path.join` discard the project
prefix entirely, and a `..` path walks out of the projects root; in both
cases directories are created and the file is written outside the project
directory while a success message is returned. -/
theorem C10_write_file_escapes :
    (write_file "/tmp/projects" "proj1" "/etc/cron.d/evil" "payload" "/"
      = ("File '/etc/cron.d/evil' has been written successfully in project 'proj1'.",
         [FsEffect.makedirs "/etc/cron.d", FsEffect.writeF "/etc/cron.d/evil" "payload"])
      ∧ startsWithStr "/tmp/projects" "/etc/cron.d/evil" = false)
    ∧ (write_file "/tmp/projects" "proj1" "../../etc/passwd" "owned" "/"
      = ("File '../../etc/passwd' has been written successfully in project 'proj1'.",
         [FsEffect.makedirs "/tmp/etc", FsEffect.writeF "/tmp/etc/passwd" "owned"])
      ∧ startsWithStr "/tmp/projects" "/tmp/etc/passwd" = false) := by
  decide

/-! ### Configuration constants (`src/api/app/config.py` defaults) -/

/-- Configured dock-route binary path (config.py line 26 default). -/
def DOCK_ROUTE_PATH : String := "/usr/local/bin/dock-route"

/-- Configured projects root (config.py line 22 default). -/
def PROJECTS_DIR : String := "/tmp/projects"

/-- Configured template root (config.py line 23 default). -/
def PROJECTS_TEMPLATE_DIR : String := "/tmp/projects/templates"

/-! ### Container status parsing (`src/api/app/utils/docker_route.py`) -/

/-- The status dictionary `check_container_status` builds. Keys the Python
dict sometimes omits are modelled as `""` / `none`. -/
structure ContainerInfo where
  exists_ : Bool
  status : String
  running : Bool
  image : String
  ports : String
  subdomain : String
  error : Option String
  deriving DecidableEq

/-- The live signal of docker_route.py lines 102-103: substring containment of
"running" or "up" in the lowercased status text. -/
def runSignal (statusText : String) : Bool :=
  subStr "running" (lowerStr statusText) || subStr "up" (lowerStr statusText)

/-- Starting dictionary for a container found in the listing (docker_route.py
lines 73-80 with `exists` set true at line 89). -/
def foundInit : ContainerInfo :=
  { exists_ := true, status := "Not found", running := false,
    image := "", ports := "", subdomain := "", error := none }

/-- Detail-line scan of docker_route.py lines 92-115: at most `fuel` (= 5)
lines are examined; a new `- **` name marker or a blank line stops the scan. -/
def parseDetails : Nat → List String → ContainerInfo → ContainerInfo
  | 0, _, info => info
  | _ + 1, [], info => info
  | fuel + 1, line :: rest, info =>
    if startsWithStr "Image:" (pyStrip line) then
      parseDetails fuel rest { info with image := pyStrip (pyReplace (pyStrip line) "Image:" "") }
    else if startsWithStr "Status:" (pyStrip line) then
      parseDetails fuel rest
        { info with status := pyStrip (pyReplace (pyStrip line) "Status:" ""),
                    running := runSignal (pyStrip (pyReplace (pyStrip line) "Status:" "")) }
    else if startsWithStr "Ports:" (pyStrip line) then
      parseDetails fuel rest { info with ports := pyStrip (pyReplace (pyStrip line) "Ports:" "") }
    else if startsWithStr "Subdomain:" (pyStrip line) then
      parseDetails fuel rest { info with subdomain := pyStrip (pyReplace (pyStrip line) "Subdomain:" "") }
    else if startsWithStr "- **" (pyStrip line) && subStr "**" (pyStrip line) then info
    else if pyStrip line = "" then info
    else parseDetails fuel rest info

/-- Outer scan of docker_route.py lines 82-119: the first line whose stripped
text contains the bold marker of the requested name starts that container's
block. -/
def findContainer (name : String) : List String → Option ContainerInfo
  | [] => none
  | line :: rest =>
    if subStr ("**" ++ name ++ "**") (pyStrip line) then
      some (parseDetails 5 rest foundInit)
    else findContainer name rest

/-- Not-found dictionary (docker_route.py lines 121-127). -/
def notFoundInfo (name : String) : ContainerInfo :=
  { exists_ := false, status := "Container not found in dock-route managed containers",
    running := false, image := "", ports := "", subdomain := "",
    error := some ("Container '" ++ name ++ "' not found in list") }

/-- Outcome of one `subprocess.run` call as the sources observe it: a
completed process with exit code and captured streams, a timeout, a missing
executable, or some other raised exception. -/
inductive SubprocResult where
  | completed (returncode : Int) (stdout stderr : String)
  | timedOut
  | fileNotFound
  | raised (msg : String)
  deriving DecidableEq

/-- Embedding of `check_container_status` (docker_route.py lines 41-152); the
listing subprocess outcome is supplied by the caller's world. -/
def check_container_status (name : String) (listing : SubprocResult) : ContainerInfo :=
  match listing with
  | .completed rc _out err =>
    if rc = 0 then
      match findContainer name (splitChar '\n' _out) with
      | some info => info
      | none => notFoundInfo name
    else
      { exists_ := false, status := "Error listing containers", running := false,
        image := "", ports := "", subdomain := "",
        error := some (if err = "" then "Failed to list containers" else err) }
  | .timedOut =>
      { exists_ := false, status := "Timeout", running := false, image := "", ports := "",
        subdomain := "", error := some "Timeout while checking container status" }
  | .fileNotFound =>
      { exists_ := false, status := "Error", running := false, image := "", ports := "",
        subdomain := "", error := some ("No such file or directory: " ++ DOCK_ROUTE_PATH) }
  | .raised m =>
      { exists_ := false, status := "Error", running := false, image := "", ports := "",
        subdomain := "", error := some m }

/-- Spec-side reading of claim C4: the blank-separated tokens of the
lowercased status value. -/
def statusTokens (statusText : String) : List String :=
  pySplitWs (lowerStr statusText)

/-- Spec-side reading of claim C4: some token equals "running" or "up". -/
def tokenSignal (statusText : String) : Bool :=
  (statusTokens statusText).contains "running" || (statusTokens statusText).contains "up"

lemma parseDetails_runSignal (fuel : Nat) (lines : List String) (info : ContainerInfo)
    (h : info.running = runSignal info.status) :
    (parseDetails fuel lines info).running = runSignal (parseDetails fuel lines info).status := by
  induction fuel generalizing lines info with
  | zero => simpa [parseDetails] using h
  | succ n ih =>
    cases lines with
    | nil => simpa [parseDetails] using h
    | cons line rest =>
      simp only [parseDetails]
      split
      · exact ih rest _ h
      · split
        · exact ih rest _ rfl
        · split
          · exact ih rest _ h
          · split
            · exact ih rest _ h
            · split
              · exact h
              · split
                · exact h
                · exact ih rest _ h

lemma findContainer_runSignal (name : String) (lines : List String) (info : ContainerInfo)
    (h : findContainer name lines = some info) :
    info.running = runSignal info.status := by
  induction lines with
  | nil => simp [findContainer] at h
  | cons line rest ih =>
    simp only [findContainer] at h
    split at h
    · injection h with h2
      rw [← h2]
      exact parseDetails_runSignal 5 rest foundInit (by decide)
    · exact ih h

/-- Claim C4 counterexample: in this listing the found container's Status
value is "backup", whose tokens include neither "running" nor "up", yet the
parsed running flag is true, because the source tests substring containment
and "up" occurs inside the word "backup". -/
theorem C4_token_counterexample :
    (check_container_status "sb1" (.completed 0 "- **sb1**\n  Status: backup\n" "")).running = true
    ∧ (check_container_status "sb1" (.completed 0 "- **sb1**\n  Status: backup\n" "")).status
        = "backup"
    ∧ tokenSignal "backup" = false := by
  decide

/-- Claim C4 amended: for every listing outcome and container name, the parsed
running flag is true exactly when the lowercased Status value contains
"running" or "up" as a substring (not as a blank-separated token). -/
theorem C4_running_substring (name : String) (listing : SubprocResult) :
    (check_container_status name listing).running
      = runSignal (check_container_status name listing).status := by
  cases listing with
  | completed rc out err =>
    simp only [check_container_status]
    split
    · cases hf : findContainer name (splitChar '\n' out) with
      | some info =>
        simp only [hf]
        exact findContainer_runSignal name _ info hf
      | none =>
        simp only [hf, notFoundInfo]
        decide
    · show false = runSignal "Error listing containers"
      decide
  | timedOut =>
    show false = runSignal "Timeout"
    decide
  | fileNotFound =>
    show false = runSignal "Error"
    decide
  | raised m =>
    show false = runSignal "Error"
    decide

/-! ### Substring lemmas -/

lemma subList_of_isPre (pat l : List Char) (h : isPre pat l = true) : subList pat l = true := by
  cases l with
  | nil => simpa [subList] using h
  | cons c t => simp [subList, h]

lemma isPre_append (l t : List Char) : isPre l (l ++ t) = true := by
  induction l with
  | nil => rfl
  | cons a as ih => simp [isPre, ih]

lemma subList_append_right (pat A : List Char) {l : List Char}
    (h : subList pat l = true) : subList pat (A ++ l) = true := by
  induction A with
  | nil => simpa using h
  | cons a A ih =>
    simp only [List.cons_append, subList, Bool.or_eq_true]
    exact Or.inr ih

lemma subList_self_append (pat B : List Char) : subList pat (pat ++ B) = true :=
  subList_of_isPre _ _ (isPre_append pat B)

lemma subList_append_self (A pat : List Char) : subList pat (A ++ pat) = true :=
  subList_append_right pat A (by simpa using subList_self_append pat [])

lemma dropWhile_ex (p : Char → Bool) (l : List Char) : ∃ A, l = A ++ l.dropWhile p := by
  induction l with
  | nil => exact ⟨[], rfl⟩
  | cons c t ih =>
    by_cases h : p c = true
    · obtain ⟨A, hA⟩ := ih
      exact ⟨c :: A, by simp [List.dropWhile, h]; exact hA⟩
    · exact ⟨[], by simp [List.dropWhile, h]⟩

lemma isPre_cons_ex (c : Char) (ps m : List Char) (h : isPre (c :: ps) m = true) :
    ∃ ms, m = c :: ms ∧ isPre ps ms = true := by
  cases m with
  | nil => simp [isPre] at h
  | cons c2 ms =>
    simp only [isPre] at h
    split at h
    · exact ⟨ms, by rw [‹c = c2›], h⟩
    · exact absurd h (by simp)

/-! ### Readiness backoff and the container command executor -/

/-- One attempted match of the regex `up (\d+) second` at the start of `l`:
the literal "up ", one or more digits, then the literal " second". A greedy
digit run loses nothing: no digit can start " second", so backtracking inside
`(\d+)` can never produce a match the maximal run misses. -/
def matchUpSecondAt : List Char → Option Nat
  | a :: b :: c :: rest =>
    if a = 'u' ∧ b = 'p' ∧ c = ' '
        ∧ rest.takeWhile Char.isDigit ≠ []
        ∧ isPre " second".data (rest.dropWhile Char.isDigit) = true then
      some (digitsToNat (rest.takeWhile Char.isDigit))
    else none
  | _ => none

/-- `re.search(r'up (\d+) second', s)` restricted to the captured number:
leftmost match wins, as in Python. -/
def reSearchUpSecond : List Char → Option Nat
  | [] => none
  | c :: t =>
    match matchUpSecondAt (c :: t) with
    | some n => some n
    | none => reSearchUpSecond t

/-- The grace-sleep durations of docker_route.py lines 190-204, in execution
order. The `except` fallback there (`time.sleep(3)`) is dead code: `re.search`
on a constant, valid pattern and `int` on a run of captured digits cannot
raise, so the embedded function never produces a 3-second sleep. -/
def graceSleeps (statusText : String) : List Nat :=
  if subStr "up" (lowerStr statusText)
      && (subStr "second" (lowerStr statusText) || subStr "minute" (lowerStr statusText)) then
    if subStr "second" (lowerStr statusText) then
      match reSearchUpSecond (lowerStr statusText).data with
      | some n => if n < 30 then [5] else []
      | none => []
    else []
  else []

/-- Observable actions of the docker_route functions: a status query (itself
a listing subprocess), a `time.sleep`, and a spawned subprocess. -/
inductive DockEffect where
  | query (name : String)
  | sleep (secs : Nat)
  | spawn (argv : List String)
  deriving DecidableEq

/-- The result dictionary of `execute_container_command`. -/
structure CmdResult where
  success : Bool
  stdout : String
  stderr : String
  return_code : Int
  command : String
  container_status : ContainerInfo
  deriving DecidableEq

/-- Argv of the `dock-route exec` call (docker_route.py lines 208-213). -/
def execArgv (name command : String) : List String :=
  [DOCK_ROUTE_PATH, "exec", name, "--"] ++ pySplitWs command

/-- Embedding of `execute_container_command` (docker_route.py lines 155-261):
the status query consumes `listing`; `execRun` is the outcome of the
`dock-route exec` subprocess when one is spawned. -/
def execute_container_command (container_name command : String)
    (listing execRun : SubprocResult) : CmdResult × List DockEffect :=
  let status := check_container_status container_name listing
  if status.exists_ = false then
    ({ success := false, stdout := "",
       stderr := "Container '" ++ container_name ++ "' not found",
       return_code := -1, command := command, container_status := status },
     [.query container_name])
  else if status.running = false then
    ({ success := false, stdout := "",
       stderr := "Container '" ++ container_name ++ "' is not running. Status: " ++ status.status,
       return_code := -1, command := command, container_status := status },
     [.query container_name])
  else
    match execRun with
    | .completed rc out err =>
      ({ success := rc == 0, stdout := out, stderr := err, return_code := rc,
         command := command, container_status := status },
       [DockEffect.query container_name] ++ (graceSleeps status.status).map DockEffect.sleep
         ++ [DockEffect.spawn (execArgv container_name command)])
    | .timedOut =>
      ({ success := false, stdout := "", stderr := "Command timed out after 5 minutes",
         return_code := -1, command := command, container_status := status },
       [DockEffect.query container_name] ++ (graceSleeps status.status).map DockEffect.sleep
         ++ [DockEffect.spawn (execArgv container_name command)])
    | .fileNotFound =>
      ({ success := false, stdout := "",
         stderr := "dock-route executable not found at " ++ DOCK_ROUTE_PATH,
         return_code := -1, command := command, container_status := status },
       [DockEffect.query container_name] ++ (graceSleeps status.status).map DockEffect.sleep
         ++ [DockEffect.spawn (execArgv container_name command)])
    | .raised m =>
      ({ success := false, stdout := "", stderr := m,
         return_code := -1, command := command, container_status := status },
       [DockEffect.query container_name] ++ (graceSleeps status.status).map DockEffect.sleep
         ++ [DockEffect.spawn (execArgv container_name command)])

/-- The sleep durations recorded in an effect trace, in order. -/
def sleepsOf (effects : List DockEffect) : List Nat :=
  effects.filterMap (fun e => match e with | .sleep n => some n | _ => none)

lemma strData_append (a b : String) : (a ++ b).data = a.data ++ b.data := by
  cases a
  cases b
  rfl

lemma matchUpSecondAt_shape (l : List Char) (n : Nat) (h : matchUpSecondAt l = some n) :
    ∃ rest, l = 'u' :: 'p' :: ' ' :: rest
      ∧ isPre " second".data (rest.dropWhile Char.isDigit) = true := by
  match l with
  | [] => simp [matchUpSecondAt] at h
  | [a] => simp [matchUpSecondAt] at h
  | [a, b] => simp [matchUpSecondAt] at h
  | a :: b :: c :: rest =>
    simp only [matchUpSecondAt] at h
    split at h
    · rename_i hc
      obtain ⟨ha, hb, hcc, _, hpre⟩ := hc
      exact ⟨rest, by rw [ha, hb, hcc], hpre⟩
    · exact absurd h (by simp)

lemma reSearch_sub_up (l : List Char) (n : Nat) (h : reSearchUpSecond l = some n) :
    subList "up".data l = true := by
  induction l with
  | nil => simp [reSearchUpSecond] at h
  | cons c t ih =>
    simp only [reSearchUpSecond] at h
    cases hm : matchUpSecondAt (c :: t) with
    | some m =>
      obtain ⟨rest, hshape, _⟩ := matchUpSecondAt_shape _ _ hm
      rw [hshape]
      exact subList_of_isPre _ _ (by simp [isPre])
    | none =>
      rw [hm] at h
      simp only [subList, Bool.or_eq_true]
      exact Or.inr (ih h)

lemma reSearch_sub_second (l : List Char) (n : Nat) (h : reSearchUpSecond l = some n) :
    subList "second".data l = true := by
  induction l with
  | nil => simp [reSearchUpSecond] at h
  | cons c t ih =>
    simp only [reSearchUpSecond] at h
    cases hm : matchUpSecondAt (c :: t) with
    | some m =>
      obtain ⟨rest, hshape, hpre⟩ := matchUpSecondAt_shape _ _ hm
      obtain ⟨ms, hms, hpre2⟩ := isPre_cons_ex ' ' "second".data _ hpre
      obtain ⟨A, hA⟩ := dropWhile_ex Char.isDigit rest
      rw [hshape]
      have hrest : rest = A ++ (' ' :: ms) := by rw [hA, hms]
      have : ('u' :: 'p' :: ' ' :: rest) = ['u', 'p', ' '] ++ A ++ (' ' :: ms) := by
        rw [hrest]; simp
      rw [this]
      rw [List.append_assoc]
      apply subList_append_right
      apply subList_append_right
      simp only [subList, Bool.or_eq_true]
      exact Or.inr (subList_of_isPre _ _ hpre2)
    | none =>
      rw [hm] at h
      simp only [subList, Bool.or_eq_true]
      exact Or.inr (ih h)

/-- The grace-sleep list is fully determined by the regex extraction on the
lowercased status text: the outer "up"/"second"/"minute" substring conditions
are implied by any successful match. -/
lemma graceSleeps_eq (s : String) :
    graceSleeps s = (match reSearchUpSecond (lowerStr s).data with
      | some n => if n < 30 then [5] else []
      | none => []) := by
  unfold graceSleeps
  by_cases h2 : subStr "second" (lowerStr s) = true
  · by_cases h1 : subStr "up" (lowerStr s) = true
    · simp [h1, h2]
    · have hnone : reSearchUpSecond (lowerStr s).data = none := by
        cases hr : reSearchUpSecond (lowerStr s).data with
        | none => rfl
        | some n => exact absurd (reSearch_sub_up _ _ hr) (by simpa [subStr] using h1)
      simp [h1, hnone]
  · have hnone : reSearchUpSecond (lowerStr s).data = none := by
      cases hr : reSearchUpSecond (lowerStr s).data with
      | none => rfl
      | some n => exact absurd (reSearch_sub_second _ _ hr) (by simpa [subStr] using h2)
    simp [h2, hnone]

lemma subStr_notfound_msg (n : String) :
    subStr "not found" ("Container '" ++ n ++ "' not found") = true := by
  show subList "not found".data (("Container '" ++ n ++ "' not found")).data = true
  rw [strData_append, strData_append]
  rw [show "' not found".data = "' ".data ++ "not found".data from rfl]
  rw [← List.append_assoc]
  exact subList_append_self _ _

lemma subStr_notrunning_msg (n st : String) :
    subStr "not running" ("Container '" ++ n ++ "' is not running. Status: " ++ st) = true := by
  show subList "not running".data
    (("Container '" ++ n ++ "' is not running. Status: " ++ st)).data = true
  rw [strData_append, strData_append, strData_append]
  rw [show "' is not running. Status: ".data
        = "' is ".data ++ ("not running".data ++ ". Status: ".data) from rfl]
  simp only [List.append_assoc]
  apply subList_append_right
  apply subList_append_right
  apply subList_append_right
  exact subList_self_append _ _

lemma subStr_statustext_msg (n st : String) :
    subStr st ("Container '" ++ n ++ "' is not running. Status: " ++ st) = true := by
  show subList st.data
    (("Container '" ++ n ++ "' is not running. Status: " ++ st)).data = true
  rw [strData_append, strData_append, strData_append]
  simp only [List.append_assoc]
  apply subList_append_right
  apply subList_append_right
  apply subList_append_right
  exact subList_append_self [] _

/-- Claim C5 (confirmed): `execute_container_command` queries status first and
fails fast. When the container is not found, the result is failed, mentions
"not found", and the effect trace is the lone status query — no exec process
is spawned and no sleep happens. When it exists but is not running, the
result has success false, its stderr contains "not running" and the current
status text, and again the trace is the lone status query. -/
theorem C5_exec_fail_fast (container_name command : String) (listing execRun : SubprocResult) :
    ((check_container_status container_name listing).exists_ = false →
      (execute_container_command container_name command listing execRun).1.success = false
      ∧ subStr "not found"
          (execute_container_command container_name command listing execRun).1.stderr = true
      ∧ (execute_container_command container_name command listing execRun).2
          = [DockEffect.query container_name])
    ∧ ((check_container_status container_name listing).exists_ = true →
        (check_container_status container_name listing).running = false →
      (execute_container_command container_name command listing execRun).1.success = false
      ∧ subStr "not running"
          (execute_container_command container_name command listing execRun).1.stderr = true
      ∧ subStr (check_container_status container_name listing).status
          (execute_container_command container_name command listing execRun).1.stderr = true
      ∧ (execute_container_command container_name command listing execRun).2
          = [DockEffect.query container_name]) := by
  constructor
  · intro h
    dsimp only [execute_container_command]
    rw [if_pos h]
    exact ⟨rfl, subStr_notfound_msg container_name, rfl⟩
  · intro h1 h2
    dsimp only [execute_container_command]
    rw [if_neg (by simp [h1]), if_pos h2]
    exact ⟨rfl, subStr_notrunning_msg container_name _, subStr_statustext_msg container_name _, rfl⟩

/-- Witness for C5 at the gating scenario of spec §8: a listed container in
state `Exited (0)` rejects `pnpm build` with a "not running" message and no
exec spawn. -/
theorem C5_exec_fail_fast_witness :
    (execute_container_command "sb1" "pnpm build"
        (.completed 0 "- **sb1**\n  Status: Exited (0)\n" "") (.completed 0 "" "")).1.success = false
    ∧ subStr "not running"
        (execute_container_command "sb1" "pnpm build"
          (.completed 0 "- **sb1**\n  Status: Exited (0)\n" "") (.completed 0 "" "")).1.stderr = true
    ∧ (execute_container_command "sb1" "pnpm build"
        (.completed 0 "- **sb1**\n  Status: Exited (0)\n" "") (.completed 0 "" "")).2
        = [DockEffect.query "sb1"] := by
  have h := (C5_exec_fail_fast "sb1" "pnpm build"
      (.completed 0 "- **sb1**\n  Status: Exited (0)\n" "") (.completed 0 "" "")).2
      (by decide) (by decide)
  exact ⟨h.1, h.2.1, h.2.2.2⟩

lemma sleepsOf_inner (l : List Nat) (argv : List String) :
    sleepsOf (l.map DockEffect.sleep ++ [DockEffect.spawn argv]) = l := by
  induction l with
  | nil => rfl
  | cons a t ih =>
    simp only [List.map_cons, List.cons_append, sleepsOf, List.filterMap_cons]
    simpa [sleepsOf] using ih

lemma sleepsOf_trace (nm : String) (l : List Nat) (argv : List String) :
    sleepsOf ([DockEffect.query nm] ++ l.map DockEffect.sleep ++ [DockEffect.spawn argv]) = l := by
  simp only [List.cons_append, List.nil_append, sleepsOf, List.filterMap_cons]
  simpa [sleepsOf, List.append_assoc] using sleepsOf_inner l argv

/-- Claim C6 (confirmed): for a running container the readiness backoff is a
one-shot delay. The call performs at most one grace sleep; when the regex
`up (\d+) second` extracts an age under 30 seconds from the lowercased status
text, the trace holds exactly one 5-second sleep; when it extracts 30 or
more, or extracts nothing (no recent-start signal), no sleep happens. -/
theorem C6_readiness_backoff (container_name command : String) (listing execRun : SubprocResult)
    (hex : (check_container_status container_name listing).exists_ = true)
    (hrun : (check_container_status container_name listing).running = true) :
    (sleepsOf (execute_container_command container_name command listing execRun).2).length ≤ 1
    ∧ (∀ n, reSearchUpSecond
          (lowerStr (check_container_status container_name listing).status).data = some n →
        (n < 30 →
          sleepsOf (execute_container_command container_name command listing execRun).2 = [5])
        ∧ (30 ≤ n →
          sleepsOf (execute_container_command container_name command listing execRun).2 = []))
    ∧ (reSearchUpSecond
          (lowerStr (check_container_status container_name listing).status).data = none →
        sleepsOf (execute_container_command container_name command listing execRun).2 = []) := by
  have hsl : (execute_container_command container_name command listing execRun).2
      = [DockEffect.query container_name]
        ++ (graceSleeps (check_container_status container_name listing).status).map DockEffect.sleep
        ++ [DockEffect.spawn (execArgv container_name command)] := by
    dsimp only [execute_container_command]
    rw [if_neg (by simp [hex]), if_neg (by simp [hrun])]
    cases execRun <;> rfl
  have hs2 : sleepsOf (execute_container_command container_name command listing execRun).2
      = graceSleeps (check_container_status container_name listing).status := by
    rw [hsl]; exact sleepsOf_trace _ _ _
  rw [hs2, graceSleeps_eq]
  cases hr : reSearchUpSecond
      (lowerStr (check_container_status container_name listing).status).data with
  | some n =>
    dsimp only
    refine ⟨by split <;> simp, ?_, by simp⟩
    intro n2 hn2
    injection hn2 with hn2
    subst hn2
    exact ⟨fun h30 => by rw [if_pos h30], fun h30 => by rw [if_neg (by omega)]⟩
  | none =>
    exact ⟨by simp, by simp, fun _ => rfl⟩

/-- Witness for C6: a container up for 5 seconds gets exactly one 5-second
grace sleep; one up for 45 seconds gets none. -/
theorem C6_readiness_backoff_witness :
    sleepsOf (execute_container_command "sb1" "pnpm build"
        (.completed 0 "- **sb1**\n  Status: Up 5 seconds\n" "") (.completed 0 "" "")).2 = [5]
    ∧ sleepsOf (execute_container_command "sb1" "pnpm build"
        (.completed 0 "- **sb1**\n  Status: Up 45 seconds\n" "") (.completed 0 "" "")).2 = [] :=
  ⟨((C6_readiness_backoff "sb1" "pnpm build"
      (.completed 0 "- **sb1**\n  Status: Up 5 seconds\n" "") (.completed 0 "" "")
      (by decide) (by decide)).2.1 5 (by decide)).1 (by decide),
   ((C6_readiness_backoff "sb1" "pnpm build"
      (.completed 0 "- **sb1**\n  Status: Up 45 seconds\n" "") (.completed 0 "" "")
      (by decide) (by decide)).2.1 45 (by decide)).2 (by decide)⟩

/-! ### Lifecycle manager (`src/api/app/utils/docker_route.py`) -/

/-- Argv of the `dock-route stop` call. -/
def stopArgv (n : String) : List String := [DOCK_ROUTE_PATH, "stop", n]

/-- Argv of the `dock-route start` call. -/
def startArgv (n : String) : List String := [DOCK_ROUTE_PATH, "start", n]

/-- Python `str()` of the exceptions the lifecycle functions can see; the
message text itself never matters to a claim. -/
def subprocErrMsg : SubprocResult → String
  | .completed _ _ _ => ""
  | .timedOut => "Command timed out after 60 seconds"
  | .fileNotFound => "No such file or directory: " ++ DOCK_ROUTE_PATH
  | .raised m => m

/-- The result dictionary of `restart_container`; keys the Python dict omits
on the exception path are `none`. -/
structure RestartResult where
  success : Bool
  stop_output : Option String
  start_output : Option String
  error : Option String
  deriving DecidableEq

/-- Embedding of `restart_container` (docker_route.py lines 342-382). The two
subprocess outcomes come from the world; the trace records each
`subprocess.run` invocation. A stop outcome other than a completed process is
an exception, which the single generic handler catches before the start call
is ever made. -/
def restart_container (name : String) (stopRun startRun : SubprocResult) :
    RestartResult × List DockEffect :=
  match stopRun with
  | .completed _src sout _serr =>
    match startRun with
    | .completed rc out err =>
      ({ success := rc == 0, stop_output := some sout, start_output := some out,
         error := if rc == 0 then none else some err },
       [.spawn (stopArgv name), .spawn (startArgv name)])
    | other =>
      ({ success := false, stop_output := none, start_output := none,
         error := some (subprocErrMsg other) },
       [.spawn (stopArgv name), .spawn (startArgv name)])
  | other =>
    ({ success := false, stop_output := none, start_output := none,
       error := some (subprocErrMsg other) },
     [.spawn (stopArgv name)])

/-- Claim C8 counterexample: when the stop step raises (here a 60-second
timeout), the start subprocess is never invoked even though it would have
exited 0, and success is false — contradicting both "a failing stop never
prevents the start attempt" and "success is determined solely by the start
step's exit code". -/
theorem C8_restart_counterexample :
    (restart_container "sb1" SubprocResult.timedOut
        (SubprocResult.completed 0 "started" "")).1.success = false
    ∧ (restart_container "sb1" SubprocResult.timedOut
        (SubprocResult.completed 0 "started" "")).2 = [DockEffect.spawn (stopArgv "sb1")]
    ∧ DockEffect.spawn (startArgv "sb1")
        ∉ (restart_container "sb1" SubprocResult.timedOut
            (SubprocResult.completed 0 "started" "")).2 := by
  decide

/-- The success flag the start step alone determines. -/
def startExitZero : SubprocResult → Bool
  | .completed rc _ _ => rc == 0
  | _ => false

/-- Claim C8 amended: when the stop invocation completes as a process — with
any exit code, nonzero included — the start is always attempted and the
returned success flag equals "the start completed with exit code 0",
independent of the stop step's exit code and streams; but a stop invocation
that raises (timeout, missing binary) returns success false without the
start attempt being made. -/
theorem C8_restart_amended (name : String) (src : Int) (sout serr : String)
    (startRun : SubprocResult) :
    ((restart_container name (.completed src sout serr) startRun).2
      = [DockEffect.spawn (stopArgv name), DockEffect.spawn (startArgv name)])
    ∧ (restart_container name (.completed src sout serr) startRun).1.success
        = startExitZero startRun
    ∧ (restart_container name SubprocResult.timedOut startRun).1.success = false
    ∧ (restart_container name SubprocResult.timedOut startRun).2
        = [DockEffect.spawn (stopArgv name)] := by
  refine ⟨?_, ?_, rfl, rfl⟩ <;> cases startRun <;> rfl

/-- The result dictionary of `ensure_container_running`; keys the Python dict
omits on a given path are `none`. -/
structure EnsureResult where
  success : Bool
  action : String
  status : Option String
  error : Option String
  output : Option String
  deriving DecidableEq

/-- The world one `ensure_container_running` call can consult: the listing
behind its first status query, the outcome of a start invocation, and the
listing behind the re-query after a successful start. -/
structure EnsureWorld where
  listing1 : SubprocResult
  startRun : SubprocResult
  listing2 : SubprocResult
  deriving DecidableEq

/-- Embedding of `ensure_container_running` (docker_route.py lines 385-459). -/
def ensure_container_running (name : String) (w : EnsureWorld) :
    EnsureResult × List DockEffect :=
  let status := check_container_status name w.listing1
  if status.exists_ = false then
    ({ success := false, action := "check", status := none,
       error := some ("Container '" ++ name ++ "' does not exist"), output := none },
     [.query name])
  else if status.running = true then
    ({ success := true, action := "already_running", status := some status.status,
       error := none, output := none },
     [.query name])
  else
    match w.startRun with
    | .completed rc out err =>
      if rc == 0 then
        ({ success := true, action := "started",
           status := some (check_container_status name w.listing2).status,
           error := none, output := some out },
         [.query name, .spawn (startArgv name), .sleep 3, .query name])
      else
        ({ success := false, action := "start_failed", status := none,
           error := some err, output := some out },
         [.query name, .spawn (startArgv name)])
    | .timedOut =>
      ({ success := false, action := "timeout", status := none,
         error := some "Container start operation timed out", output := none },
       [.query name, .spawn (startArgv name)])
    | other =>
      ({ success := false, action := "error", status := none,
         error := some (subprocErrMsg other), output := none },
       [.query name, .spawn (startArgv name)])

/-- Claim C7 (confirmed): with the container state unchanged and reporting
running, two consecutive `ensure_container_running` calls both return
success with action "already_running" and together issue no start invocation
(idempotent no-op); when the container is absent the call fails with no
start invocation; when it exists but is stopped and the start exits 0, the
call issues the start, sleeps the fixed 3 seconds, re-queries, and reports
the refreshed status. -/
theorem C7_ensure_running (name : String) :
    (∀ o w1 w2, w1.listing1 = o → w2.listing1 = o →
        (check_container_status name o).exists_ = true →
        (check_container_status name o).running = true →
      ensure_container_running name w1 = ensure_container_running name w2
      ∧ (ensure_container_running name w1).1
          = { success := true, action := "already_running",
              status := some (check_container_status name o).status,
              error := none, output := none }
      ∧ (ensure_container_running name w1).2 = [DockEffect.query name]
      ∧ DockEffect.spawn (startArgv name)
          ∉ (ensure_container_running name w1).2 ++ (ensure_container_running name w2).2)
    ∧ (∀ w : EnsureWorld, (check_container_status name w.listing1).exists_ = false →
        (ensure_container_running name w).1.success = false
        ∧ (ensure_container_running name w).2 = [DockEffect.query name])
    ∧ (∀ (w : EnsureWorld) (rc : Int) (out err : String),
        w.startRun = .completed rc out err → rc = 0 →
        (check_container_status name w.listing1).exists_ = true →
        (check_container_status name w.listing1).running = false →
        (ensure_container_running name w).1
          = { success := true, action := "started",
              status := some (check_container_status name w.listing2).status,
              error := none, output := some out }
        ∧ (ensure_container_running name w).2
          = [DockEffect.query name, DockEffect.spawn (startArgv name),
             DockEffect.sleep 3, DockEffect.query name]) := by
  refine ⟨?_, ?_, ?_⟩
  · intro o w1 w2 h1 h2 hex hrun
    have e1 : ensure_container_running name w1
        = ({ success := true, action := "already_running",
             status := some (check_container_status name o).status,
             error := none, output := none }, [DockEffect.query name]) := by
      dsimp only [ensure_container_running]
      rw [h1, if_neg (by simp [hex]), if_pos hrun]
    have e2 : ensure_container_running name w2
        = ({ success := true, action := "already_running",
             status := some (check_container_status name o).status,
             error := none, output := none }, [DockEffect.query name]) := by
      dsimp only [ensure_container_running]
      rw [h2, if_neg (by simp [hex]), if_pos hrun]
    rw [e1, e2]
    simp
  · intro w h
    dsimp only [ensure_container_running]
    rw [if_pos h]
    exact ⟨rfl, rfl⟩
  · intro w rc out err hstart hrc hex hrun
    dsimp only [ensure_container_running]
    rw [if_neg (by simp [hex]), if_neg (by simp [hrun]), hstart]
    dsimp only
    rw [if_pos (by simp [hrc])]
    exact ⟨rfl, rfl⟩

/-- Witness for C7: a container listed as "Up 2 minutes" makes two
consecutive calls cheap already-running no-ops with no start spawn. -/
theorem C7_ensure_running_witness :
    ensure_container_running "sb1"
        { listing1 := .completed 0 "- **sb1**\n  Status: Up 2 minutes\n" "",
          startRun := .completed 0 "" "",
          listing2 := .completed 0 "- **sb1**\n  Status: Up 2 minutes\n" "" }
      = ({ success := true, action := "already_running", status := some "Up 2 minutes",
           error := none, output := none }, [DockEffect.query "sb1"]) := by
  have h := (C7_ensure_running "sb1").1
      (.completed 0 "- **sb1**\n  Status: Up 2 minutes\n" "")
      { listing1 := .completed 0 "- **sb1**\n  Status: Up 2 minutes\n" "",
        startRun := .completed 0 "" "",
        listing2 := .completed 0 "- **sb1**\n  Status: Up 2 minutes\n" "" }
      { listing1 := .completed 0 "- **sb1**\n  Status: Up 2 minutes\n" "",
        startRun := .completed 0 "" "",
        listing2 := .completed 0 "- **sb1**\n  Status: Up 2 minutes\n" "" }
      rfl rfl (by decide) (by decide)
  have hst : (check_container_status "sb1"
      (.completed 0 "- **sb1**\n  Status: Up 2 minutes\n" "")).status = "Up 2 minutes" := by
    decide
  rw [Prod.ext_iff]
  refine ⟨?_, h.2.2.1⟩
  rw [h.2.1, hst]

/-! ### Delete-and-cleanup (spec-modelled) -/

/-- Outcomes of the three cleanup steps, supplied by the world. -/
structure CleanupWorld where
  removeContainer : Except String Unit
  removeImage : Except String Unit
  removeFiles : Except String Unit

/-- One attempted cleanup step. -/
inductive CleanupEffect where
  | attemptContainer (name : String)
  | attemptImage (name : String)
  | attemptFiles (path : String)
  deriving DecidableEq

/-- Spec-modelled cleanup result (the shape the tests mock in
`tests/conftest.py` lines 168-173). -/
structure CleanupResult where
  container_removed : Bool
  image_removed : Bool
  files_removed : Bool
  errors : List String
  deriving DecidableEq

/-- Whether a step succeeded. -/
def stepOk : Except String Unit → Bool
  | .ok _ => true
  | .error _ => false

/-- The error messages one step contributes. -/
def stepErrs : Except String Unit → List String
  | .ok _ => []
  | .error m => [m]

/-- Modelled from the spec: `delete_project_and_cleanup` is imported by
`app/api/projects.py` line 6 from `app.utils.docker_route` and mocked by the
tests, but its definition is absent from the repository sources. Spec §4.3:
it "attempts, independently and in any order, to (1) remove the sandbox,
(2) remove its image, (3) remove the project directory tree; each step's
failure is collected into an error list rather than aborting the others;
returns a per-step boolean outcome plus the collected errors". The effect
trace records every attempt; the function is total, so it never raises. -/
def delete_project_and_cleanup (container_name project_path : String) (w : CleanupWorld) :
    CleanupResult × List CleanupEffect :=
  ({ container_removed := stepOk w.removeContainer,
     image_removed := stepOk w.removeImage,
     files_removed := stepOk w.removeFiles,
     errors := stepErrs w.removeContainer ++ stepErrs w.removeImage ++ stepErrs w.removeFiles },
   [.attemptContainer container_name, .attemptImage container_name,
    .attemptFiles project_path])

/-- Claim C2 (confirmed against the spec model): every call attempts all
three steps; each per-step boolean reflects only that step's own outcome;
the errors list collects exactly the failing steps' messages; and in the
spec's scenario — container removal succeeds, image removal throws — the
directory step is still attempted and reported, and the call returns
`{container_removed := true, image_removed := false, errors := [...]}`
instead of raising. -/
theorem C2_cleanup_aggregation (cn pp : String) (w : CleanupWorld) :
    ((delete_project_and_cleanup cn pp w).2
        = [CleanupEffect.attemptContainer cn, CleanupEffect.attemptImage cn,
           CleanupEffect.attemptFiles pp])
    ∧ (delete_project_and_cleanup cn pp w).1.container_removed = stepOk w.removeContainer
    ∧ (delete_project_and_cleanup cn pp w).1.image_removed = stepOk w.removeImage
    ∧ (delete_project_and_cleanup cn pp w).1.files_removed = stepOk w.removeFiles
    ∧ (delete_project_and_cleanup cn pp w).1.errors
        = stepErrs w.removeContainer ++ stepErrs w.removeImage ++ stepErrs w.removeFiles
    ∧ (∀ m, (delete_project_and_cleanup cn pp
          { removeContainer := .ok (), removeImage := .error m, removeFiles := .ok () }).1
        = { container_removed := true, image_removed := false, files_removed := true,
            errors := [m] }) :=
  ⟨rfl, rfl, rfl, rfl, rfl, fun _ => rfl⟩

/-! ### Deploy (`docker_route.py` lines 6-38 and 264-303) -/

/-- What `deploy_app` returns on success. -/
structure DeployDetails where
  project_path : String
  container_name : String
  port : Int
  deriving DecidableEq

/-- The world a deploy call consults: whether the destination directory
already exists, any other copy-time exception, and the outcome of the
dock-route deploy subprocess. -/
structure DeployWorld where
  destExists : Bool
  copyFault : Option String
  runResult : SubprocResult
  deriving DecidableEq

/-- `shutil.copytree` semantics: with `dirs_exist_ok` left at its default an
existing destination raises FileExistsError; otherwise the world may inject
another fault; `none` is success. -/
def copytreeFault (project_path : String) (w : DeployWorld) : Option String :=
  if w.destExists then some ("[Errno 17] File exists: '" ++ project_path ++ "'")
  else w.copyFault

/-- Argv of the dock-route deploy call (docker_route.py lines 17-27). -/
def deployArgv (container_name project_path : String) (port : Int) : List String :=
  [DOCK_ROUTE_PATH, "deploy", "reactjs", container_name, project_path,
   "--host-port", toString port, "--image", container_name]

/-- Embedding of `execute_command` (docker_route.py lines 264-303):
`check=True` turns a nonzero exit into CalledProcessError, which — like
FileNotFoundError — is caught inside and turned into a returned `False`;
any other raise escapes to the caller (none can occur from `subprocess.run`
without a timeout argument, but the control flow is kept). -/
def execute_command (argv : List String) (run : SubprocResult) : Except String Bool :=
  match run with
  | .completed rc _ _ => .ok (rc == 0)
  | .fileNotFound => .ok false
  | .timedOut => .error "TimeoutExpired"
  | .raised m => .error m

/-- Embedding of `deploy_app` (docker_route.py lines 6-38): the boolean
`execute_command` returns is discarded, exactly as in the source. -/
def deploy_app (template_name project_name container_name : String) (port : Int)
    (w : DeployWorld) : Except String DeployDetails :=
  match copytreeFault (osPathJoin PROJECTS_DIR project_name) w with
  | some m => .error ("Deployment failed: " ++ m)
  | none =>
    match execute_command
        (deployArgv container_name (osPathJoin PROJECTS_DIR project_name) port) w.runResult with
    | .error m => .error ("Deployment failed: " ++ m)
    | .ok _ => .ok { project_path := osPathJoin PROJECTS_DIR project_name,
                     container_name := container_name, port := port }

/-- Claim C3 counterexample: the create/run invocation raises
FileNotFoundError (the dock-route binary is missing); `execute_command`
catches it and returns `False`, and `deploy_app` — far from wrapping the
exception into a deployment failure — returns the success details. -/
theorem C3_deploy_counterexample :
    execute_command (deployArgv "sb1" (osPathJoin PROJECTS_DIR "proj1") 8090)
        SubprocResult.fileNotFound = Except.ok false
    ∧ deploy_app "react-shadcn-template" "proj1" "sb1" 8090
        { destExists := false, copyFault := none, runResult := SubprocResult.fileNotFound }
      = Except.ok { project_path := "/tmp/projects/proj1",
                    container_name := "sb1", port := 8090 } :=
  ⟨rfl, rfl⟩

/-- Claim C3 amended: `deploy_app` fails when the destination directory
already exists (the FileExistsError is wrapped into "Deployment failed: …" —
no silent overwrite), and any exception that propagates out of the template
copy, or out of `execute_command` itself, is wrapped the same way; but
exceptions raised inside the create/run invocation (a missing binary, or a
nonzero exit turned CalledProcessError by `check=True`) are swallowed by
`execute_command`, whose boolean is discarded, so deploy returns the project
path, container name and port as success regardless of that invocation. -/
theorem C3_deploy_amended (tn pn cn m : String) (port rc : Int) (out err : String)
    (cf : Option String) (run : SubprocResult) :
    deploy_app tn pn cn port { destExists := true, copyFault := cf, runResult := run }
      = Except.error ("Deployment failed: "
          ++ ("[Errno 17] File exists: '" ++ osPathJoin PROJECTS_DIR pn ++ "'"))
    ∧ deploy_app tn pn cn port { destExists := false, copyFault := some m, runResult := run }
      = Except.error ("Deployment failed: " ++ m)
    ∧ deploy_app tn pn cn port
        { destExists := false, copyFault := none, runResult := .completed rc out err }
      = Except.ok { project_path := osPathJoin PROJECTS_DIR pn,
                    container_name := cn, port := port }
    ∧ deploy_app tn pn cn port
        { destExists := false, copyFault := none, runResult := .fileNotFound }
      = Except.ok { project_path := osPathJoin PROJECTS_DIR pn,
                    container_name := cn, port := port }
    ∧ deploy_app tn pn cn port
        { destExists := false, copyFault := none, runResult := .raised m }
      = Except.error ("Deployment failed: " ++ m) :=
  ⟨rfl, rfl, rfl, rfl, rfl⟩

/-! ### Host command tool (`tools.py` lines 97-140) -/

/-- How one `run_command_tool` call can end: a completed subprocess, the
30-second timeout, an exception out of `subprocess.run`, or the initial
`os.chdir(project_path)` itself raising (in which case the working directory
never changed). -/
inductive HostOutcome where
  | completed (returncode : Int) (stdout stderr : String)
  | timedOut
  | raisedDuringRun (msg : String)
  | chdirFailed (msg : String)
  deriving DecidableEq

/-- Process-level effects of the host tool. -/
inductive HostEffect where
  | chdir (dir : String)
  | spawnShell (cmd : String)
  deriving DecidableEq

/-- The working directory after applying a trace of effects to a starting
working directory: only successful `chdir` effects move it. -/
def applyCwd : String → List HostEffect → String
  | cwd, [] => cwd
  | _, HostEffect.chdir d :: t => applyCwd d t
  | cwd, _ :: t => applyCwd cwd t

/-- The observation string of a completed host command (tools.py lines
116-134). -/
def formatHostOutput (command project_path : String) (rc : Int) (out err : String) : String :=
  let base := "🖥️ Host Command Executed\n" ++ "Command: " ++ command ++ "\n"
    ++ "Directory: " ++ project_path ++ "\n"
    ++ "Success: " ++ (if rc == 0 then "✅ Yes" else "❌ No") ++ "\n"
    ++ "Return code: " ++ toString rc ++ "\n"
  let base2 := if out = "" then base else base ++ "\n📤 STDOUT:\n" ++ out
  let base3 := if err = "" then base2 else base2 ++ "\n📥 STDERR:\n" ++ err
  if rc == 0 then base3
  else if subStr "command not found" (lowerStr err) then
    base3 ++ "\n💡 Suggestion: Command not found. If this is a container-specific command, use execute_container_command instead."
  else if subStr "permission denied" (lowerStr err) then
    base3 ++ "\n💡 Suggestion: Permission denied. Check file permissions or try with appropriate privileges."
  else base3

/-- Embedding of `run_command_tool` (tools.py lines 97-140): the trace lists
the successful `os.chdir` calls and the shell spawn in order; every exit path
of the source restores `original_cwd` before returning. -/
def run_command_tool (project_path command original_cwd : String) (outcome : HostOutcome) :
    String × List HostEffect :=
  match outcome with
  | .completed rc out err =>
    (formatHostOutput command project_path rc out err,
     [.chdir project_path, .spawnShell command, .chdir original_cwd])
  | .timedOut =>
    ("⏰ Error: Command timed out after 30 seconds",
     [.chdir project_path, .spawnShell command, .chdir original_cwd])
  | .raisedDuringRun m =>
    ("❌ Error running command: " ++ m,
     [.chdir project_path, .spawnShell command, .chdir original_cwd])
  | .chdirFailed m =>
    ("❌ Error running command: " ++ m, [.chdir original_cwd])

/-- Claim C9 (confirmed): on every exit path — normal completion, timeout,
exception during the run, and even a failing initial chdir — the working
directory after the call equals the working directory before it. -/
theorem C9_cwd_restored (project_path command original_cwd : String) (outcome : HostOutcome) :
    applyCwd original_cwd (run_command_tool project_path command original_cwd outcome).2
      = original_cwd := by
  cases outcome <;> rfl

end AiCode
